import Mathlib

/-!
Shallow embedding of the defira secret-manager's tree-state and
secret-access engine, translated from the Rust sources:

* `src/crypto.rs`         — error classification and password-based decryption
* `src/password_prompt.rs`— password prompt state and messages
* `src/error_popup.rs`    — error popup state and messages
* `src/file_explorer.rs`  — the secret-file variant of the explorer
                            (state record, `update`, `open_file_in_editor`,
                            `render_directory_contents`)
* `src/explorer.rs`       — the earlier explorer variant (state record, `update`)

Modelling conventions: `PathBuf` and `String` paths are Lean `String`s with
components separated by a slash; `HashSet<PathBuf>` is a `Finset String`;
`iced::Point` stores `f32` coordinates that the engine only ever copies,
never computes with, so they are modelled by integers; filesystem calls
(`is_dir`, `fs::read_to_string`, `fs::remove_dir_all`, `fs::remove_file`) are
fields of an explicit `FS` record passed to the transition functions;
`text_editor::Content` is the buffer text it holds, and a
`text_editor::Action` is modelled by the buffer transformation it performs.
-/

namespace Defira

/-- Paths are strings with slash-separated components. -/
abbrev Path := String

/-- Screen position (`iced::Point`); the engine only stores and copies
positions, so integer coordinates suffice. -/
structure Point where
  x : Int
  y : Int
deriving DecidableEq, Repr

/-- The constant `iced::Point::ORIGIN`. -/
def Point.origin : Point := ⟨0, 0⟩

/-- Split a character list at every occurrence of `sep` (like
`String.splitOn` for a one-character separator, but structurally recursive
so that concrete inputs evaluate). -/
def splitChar (sep : Char) : List Char → List (List Char)
  | [] => [[]]
  | c :: cs =>
    match splitChar sep cs with
    | [] => [[]]
    | piece :: rest =>
      if c = sep then [] :: piece :: rest else (c :: piece) :: rest

/-- The final slash-separated component of a path, mirroring
`std::path::Path::file_name` on the paths the explorer builds. -/
def lastComponent (p : Path) : List Char :=
  (splitChar '/' p.data).getLastD []

/-- Rust `Path::extension()` on the file name: the part after the last dot,
except that a name with no dot, or whose only dot is the leading one of a
hidden file (".gpg"), has no extension. -/
def pathExtension (p : Path) : Option (List Char) :=
  match splitChar '.' (lastComponent p) with
  | [] => none
  | [_] => none
  | [[], _] => none
  | _ :: rest => rest.getLast?

/-- `path.extension().is_some_and(|ext| ext == "gpg")` from the source. -/
def isGpgPath (p : Path) : Bool :=
  match pathExtension p with
  | some ext => ext == "gpg".data
  | none => false

/-- `filename.to_string_lossy().starts_with('.')` from the source: hidden
entries have a leading dot. -/
def startsWithDot (name : String) : Bool :=
  match name.data with
  | [] => false
  | c :: _ => c == '.'

/-- The filesystem boundary used by the transition functions.  Read and
delete calls return the error's display text on failure. -/
structure FS where
  is_dir : Path → Bool
  read_to_string : Path → Except String String
  remove_dir_all : Path → Except String Unit
  remove_file : Path → Except String Unit

end Defira

namespace Gpgme

/-- The foreign `gpgme::Error`: a numeric code plus its display message. -/
structure Error where
  code : Nat
  message : String
deriving DecidableEq, Repr

end Gpgme

namespace Crypto

/-- `CryptoError` from `src/crypto.rs`.  `Utf8Error` carries the display
text of the foreign `FromUtf8Error`. -/
inductive CryptoError where
  | WrongPassword
  | NoData
  | GpgError (e : Gpgme.Error)
  | Utf8Error (msg : String)
deriving DecidableEq, Repr

/-- The `fmt::Display` implementation for `CryptoError`. -/
def CryptoError.display : CryptoError → String
  | .WrongPassword => "Incorrect password"
  | .NoData => "No data in encrypted file"
  | .GpgError e => "GPG error: " ++ e.message
  | .Utf8Error m => "Invalid UTF-8 in decrypted content: " ++ m

/-- `impl From<gpgme::Error> for CryptoError`: the codes
`GPG_ERR_BAD_PASSPHRASE = 11` and `GPG_ERR_DECRYPT_FAILED = 152` both
indicate a wrong password; everything else is wrapped as `GpgError`. -/
def cryptoErrorFromGpg (e : Gpgme.Error) : CryptoError :=
  if e.code == 11 || e.code == 152 then CryptoError.WrongPassword
  else CryptoError.GpgError e

/-- The foreign gpgme boundary used by `decrypt_with_password`:
context creation plus pinentry setup (the two fallible `?` steps before the
passphrase-provider callback), the raw decryption of a byte string, and
`String::from_utf8` (whose failure carries its display text). -/
structure GpgPrimitive where
  init : Except Gpgme.Error Unit
  decryptBytes : List Nat → String → Except Gpgme.Error (List Nat)
  fromUtf8 : List Nat → Except String String

/-- `decrypt_with_password` from `src/crypto.rs`: run the context setup,
decrypt, treat an empty plaintext as `NoData`, and decode UTF-8. -/
def decrypt_with_password (g : GpgPrimitive) (encrypted_data : List Nat)
    (password : String) : Except CryptoError String :=
  match g.init with
  | .error e => .error (cryptoErrorFromGpg e)
  | .ok _ =>
    match g.decryptBytes encrypted_data password with
    | .error e => .error (cryptoErrorFromGpg e)
    | .ok plaintext =>
      if plaintext.isEmpty then .error CryptoError.NoData
      else
        match g.fromUtf8 plaintext with
        | .ok s => .ok s
        | .error m => .error (CryptoError.Utf8Error m)

end Crypto

namespace PasswordPrompt

/-- `password_prompt::State`. -/
structure State where
  password : String
  show_password : Bool
  target_path : Defira.Path
deriving DecidableEq, Repr

/-- `password_prompt::State::new`. -/
def State.new (target_path : Defira.Path) : State :=
  { password := "", show_password := false, target_path := target_path }

/-- `password_prompt::Message`. -/
inductive Message where
  | PasswordChanged (s : String)
  | Submit
  | Cancel
  | ToggleVisibility
deriving DecidableEq, Repr

end PasswordPrompt

namespace ErrorPopup

/-- `error_popup::State`. -/
structure State where
  title : String
  message : String
deriving DecidableEq, Repr

/-- `error_popup::State::new`. -/
def State.new (title message : String) : State :=
  { title := title, message := message }

/-- `error_popup::Message`. -/
inductive Message where
  | Dismiss
deriving DecidableEq, Repr

end ErrorPopup

namespace FileExplorer

open Defira

/-- `file_explorer::ContextMenuState`. -/
structure ContextMenuState where
  target_path : Path
  position : Point
deriving DecidableEq, Repr

/-- `file_explorer::FileAction`.  A `text_editor::Action` is modelled by
the transformation it performs on the buffer text. -/
inductive FileAction where
  | Select (p : Path)
  | ContextMenu (p : Path)
  | CloseContextMenu
  | EditItem (p : Path)
  | DeleteItem (p : Path)
  | CursorMoved (pos : Point)
  | CloseEditor
  | EditorAction (perform : String → String)
  | PasswordPrompt (m : PasswordPrompt.Message)
  | ErrorPopup (m : ErrorPopup.Message)

/-- `file_explorer::State`. -/
structure State where
  expanded : Finset Path
  selected : Finset Path
  context_menu : Option ContextMenuState
  cursor_position : Point
  opened_file : Option Path
  editor_content : Option String
  password_prompt : Option PasswordPrompt.State
  error_popup : Option ErrorPopup.State

/-- `impl Default for State`. -/
def State.default : State :=
  { expanded := ∅
    selected := ∅
    context_menu := none
    cursor_position := Point.origin
    opened_file := none
    editor_content := none
    password_prompt := none
    error_popup := none }

/-- `open_file_in_editor` from `src/file_explorer.rs`: a `.gpg` path opens
the password prompt; otherwise the file is read, seeding the editor on
success and reporting the I/O failure through the error popup on failure. -/
def open_file_in_editor (fs : FS) (state : State) (path : Path) : State :=
  if isGpgPath path then
    { state with password_prompt := some (PasswordPrompt.State.new path) }
  else
    match fs.read_to_string path with
    | .ok content =>
      { state with
          opened_file := some path
          editor_content := some content }
    | .error e =>
      { state with
          opened_file := none
          editor_content := none
          error_popup := some (ErrorPopup.State.new "Error"
            ("Failed to read file: " ++ e)) }

/-- `update` from `src/file_explorer.rs`. -/
def update (fs : FS) (state : State) (action : FileAction) : State :=
  match action with
  | .Select path =>
    let s1 :=
      if fs.is_dir path then
        if path ∈ state.expanded then
          { state with expanded := state.expanded.erase path }
        else
          { state with expanded := insert path state.expanded }
      else
        open_file_in_editor fs state path
    if path ∉ s1.selected then
      { s1 with selected := {path} }
    else s1
  | .ContextMenu path =>
    let menu : ContextMenuState :=
      { target_path := path, position := state.cursor_position }
    { state with context_menu := some menu }
  | .CloseContextMenu =>
    { state with context_menu := none }
  | .EditItem path =>
    let s1 := open_file_in_editor fs state path
    { s1 with context_menu := none }
  | .CloseEditor =>
    { state with opened_file := none, editor_content := none }
  | .EditorAction f =>
    match state.editor_content with
    | some content => { state with editor_content := some (f content) }
    | none => state
  | .DeleteItem path =>
    { state with
        selected := state.selected.erase path
        expanded := state.expanded.erase path
        context_menu := none }
  | .CursorMoved pos =>
    { state with cursor_position := pos }
  | .PasswordPrompt msg =>
    match msg with
    | .PasswordChanged password =>
      match state.password_prompt with
      | some prompt =>
        { state with password_prompt := some { prompt with password := password } }
      | none => state
    | .ToggleVisibility =>
      match state.password_prompt with
      | some prompt =>
        let prompt2 := { prompt with show_password := !prompt.show_password }
        { state with password_prompt := some prompt2 }
      | none => state
    | .Submit =>
      -- `state.password_prompt.take()`: the prompt is removed; the source
      -- then only logs — the TODO notes that decryption is not yet wired in.
      match state.password_prompt with
      | some _ => { state with password_prompt := none }
      | none => state
    | .Cancel =>
      { state with password_prompt := none }
  | .ErrorPopup msg =>
    match msg with
    | .Dismiss => { state with error_popup := none }

/-- A filesystem subtree as enumerated by `fs::read_dir`: entries carry the
order the filesystem reports.  `brokenDir` is a directory whose own
`read_dir` fails (the source logs the error and renders no contents). -/
inductive Entry where
  | file (name : String) : Entry
  | brokenDir (name : String) : Entry
  | dir (name : String) (contents : List Entry) : Entry

/-- One row pushed by `create_row`: the node's path, its indent level and
whether it is a directory (the styling-only arguments are dropped). -/
structure Row where
  path : Path
  indent_level : Nat
  is_directory : Bool
deriving DecidableEq, Repr

/-- `render_directory_contents` from `src/file_explorer.rs`, over the
entries `fs::read_dir(path)` yields: hidden names (leading dot) are
skipped; every other entry gets a row; an expanded directory's contents are
rendered recursively right after its row; a directory whose read fails
contributes no contents. -/
def render_directory_contents (expanded : Finset Path) (path : Path)
    (indent_level : Nat) : List Entry → List Row
  | [] => []
  | Entry.file name :: rest =>
    (if startsWithDot name then []
     else [⟨path ++ "/" ++ name, indent_level, false⟩])
    ++ render_directory_contents expanded path indent_level rest
  | Entry.brokenDir name :: rest =>
    (if startsWithDot name then []
     else [⟨path ++ "/" ++ name, indent_level, true⟩])
    ++ render_directory_contents expanded path indent_level rest
  | Entry.dir name contents :: rest =>
    (if startsWithDot name then []
     else
       ⟨path ++ "/" ++ name, indent_level, true⟩ ::
         (if (path ++ "/" ++ name) ∈ expanded then
           render_directory_contents expanded (path ++ "/" ++ name)
             (indent_level + 1) contents
          else []))
    ++ render_directory_contents expanded path indent_level rest
termination_by es => sizeOf es
decreasing_by all_goals (simp_wf; try omega)

/-- The name of an entry. -/
def entryName : Entry → String
  | .file name => name
  | .brokenDir name => name
  | .dir name _ => name

/-- Whether an entry is a directory. -/
def entryIsDir : Entry → Bool
  | .file _ => false
  | .brokenDir _ => true
  | .dir _ _ => true

/-- The children of an entry; an unreadable directory's subtree is treated
as empty. -/
def childEntries : Entry → List Entry
  | .file _ => []
  | .brokenDir _ => []
  | .dir _ contents => contents

/-- Modelled from the spec wording of the Tree Index contract
(`list_visible_nodes`): a pre-order, depth-first traversal in which a
directory's children are emitted immediately after it iff the directory's
path is in `expanded`; hidden entries are excluded unconditionally; an
unreadable directory's subtree is treated as empty. -/
def list_visible_nodes (expanded : Finset Path) (parent : Path)
    (depth : Nat) : List Entry → List Row
  | [] => []
  | e :: rest =>
    (if startsWithDot (entryName e) then []
     else
       ⟨parent ++ "/" ++ entryName e, depth, entryIsDir e⟩ ::
         (if entryIsDir e && decide ((parent ++ "/" ++ entryName e) ∈ expanded) then
           list_visible_nodes expanded (parent ++ "/" ++ entryName e)
             (depth + 1) (childEntries e)
          else []))
    ++ list_visible_nodes expanded parent depth rest
termination_by es => sizeOf es
decreasing_by
  all_goals simp_wf
  all_goals (cases e <;> simp [childEntries] <;> omega)

end FileExplorer

namespace Explorer

open Defira

/-- `explorer::ContextMenuState`. -/
structure ContextMenuState where
  target_path : Path
  is_directory : Bool
  position : Point
deriving DecidableEq, Repr

/-- `explorer::FileAction`. -/
inductive FileAction where
  | Select (p : Path) (is_dir : Bool)
  | ContextMenu (p : Path) (is_dir : Bool)
  | CloseContextMenu
  | DeleteItem (p : Path)
  | CursorMoved (pos : Point)
deriving Repr

/-- `explorer::State`. -/
structure State where
  expanded : Finset Path
  selected : Finset Path
  context_menu : Option ContextMenuState
  cursor_position : Point

/-- `impl Default for State` in `src/explorer.rs`. -/
def State.default : State :=
  { expanded := ∅
    selected := ∅
    context_menu := none
    cursor_position := Point.origin }

/-- `update` from `src/explorer.rs`.  Note that `DeleteItem` removes the
path from `selected` and `expanded` only when the filesystem delete
succeeded; a failure is only logged. -/
def update (fs : FS) (state : State) (action : FileAction) : State :=
  match action with
  | .Select path is_dir =>
    let s1 :=
      if is_dir then
        if path ∈ state.expanded then
          { state with expanded := state.expanded.erase path }
        else
          { state with expanded := insert path state.expanded }
      else state
    let s2 :=
      if path ∉ s1.selected then
        { s1 with selected := {path} }
      else s1
    { s2 with context_menu := none }
  | .ContextMenu path is_dir =>
    let menu : ContextMenuState :=
      { target_path := path, is_directory := is_dir,
        position := state.cursor_position }
    { state with context_menu := some menu }
  | .CloseContextMenu =>
    { state with context_menu := none }
  | .DeleteItem path =>
    let result :=
      if fs.is_dir path then fs.remove_dir_all path else fs.remove_file path
    let s1 :=
      match result with
      | .ok _ =>
        { state with
            selected := state.selected.erase path
            expanded := state.expanded.erase path }
      | .error _ => state
    { s1 with context_menu := none }
  | .CursorMoved pos =>
    { state with cursor_position := pos }

end Explorer

open Defira

/-- A filesystem in which every path is a plain file and every I/O call
fails: reads fail with "io error", deletes with "denied". -/
def fsAllFail : FS :=
  { is_dir := fun _ => false
    read_to_string := fun _ => Except.error "io error"
    remove_dir_all := fun _ => Except.error "denied"
    remove_file := fun _ => Except.error "denied" }

/-- A filesystem in which every path is a plain file whose read yields
"hello" and deletes succeed. -/
def fsAllOk : FS :=
  { is_dir := fun _ => false
    read_to_string := fun _ => Except.ok "hello"
    remove_dir_all := fun _ => Except.ok ()
    remove_file := fun _ => Except.ok () }

/-- A gpgme boundary whose setup succeeds and whose decryption succeeds
with zero bytes of plaintext. -/
def gpgEmptyPlain : Crypto.GpgPrimitive :=
  { init := Except.ok ()
    decryptBytes := fun _ _ => Except.ok []
    fromUtf8 := fun _ => Except.error "invalid utf-8" }

/-- A gpgme boundary whose decryption succeeds with the bytes of "hi". -/
def gpgHiPlain : Crypto.GpgPrimitive :=
  { init := Except.ok ()
    decryptBytes := fun _ _ => Except.ok [104, 105]
    fromUtf8 := fun _ => Except.ok "hi" }

/-- A secret-file-variant state with a context menu open at `(50, 80)` for
node `X`. -/
def menuOpenState : FileExplorer.State :=
  { FileExplorer.State.default with context_menu := some ⟨"X", ⟨50, 80⟩⟩ }

/-- An explorer-variant state in which `s.txt` is both selected and
expanded. -/
def deleteFailState : Explorer.State :=
  { Explorer.State.default with selected := {"s.txt"}, expanded := {"s.txt"} }

/-- A secret-file-variant state with a password prompt open for an
encrypted target, holding an in-progress password. -/
def promptOpenState : FileExplorer.State :=
  { FileExplorer.State.default with
      password_prompt := some { password := "hunter2", show_password := false,
                                target_path := "/secrets/a.gpg" } }

namespace FileExplorer

theorem open_file_in_editor_selected (fs : FS) (s : State) (p : Path) :
    (open_file_in_editor fs s p).selected = s.selected := by
  unfold open_file_in_editor
  split
  · rfl
  · split <;> rfl

theorem open_file_in_editor_expanded (fs : FS) (s : State) (p : Path) :
    (open_file_in_editor fs s p).expanded = s.expanded := by
  unfold open_file_in_editor
  split
  · rfl
  · split <;> rfl

theorem open_file_in_editor_context_menu (fs : FS) (s : State) (p : Path) :
    (open_file_in_editor fs s p).context_menu = s.context_menu := by
  unfold open_file_in_editor
  split
  · rfl
  · split <;> rfl

theorem select_tail_context_menu (p : Path) (s0 s : State)
    (h : s0.context_menu = s.context_menu) :
    (if p ∉ s0.selected then { s0 with selected := {p} } else s0).context_menu
      = s.context_menu := by
  split
  · exact h
  · exact h

theorem update_Select_context_menu (fs : FS) (s : State) (p : Path) :
    (update fs s (FileAction.Select p)).context_menu = s.context_menu := by
  simp only [update]
  split
  · split
    · exact select_tail_context_menu p _ s rfl
    · exact select_tail_context_menu p _ s rfl
  · exact select_tail_context_menu p _ s (open_file_in_editor_context_menu fs s p)

end FileExplorer

namespace Explorer

theorem update_Select_closes_menu (fs : FS) (s : State) (p : Path)
    (d : Bool) : (update fs s (FileAction.Select p d)).context_menu = none := by
  simp only [update]

end Explorer

/-- Claim C1: processing `Submit` only destroys the password prompt and
leaves every other field of the state unchanged — in particular the
Decryption Service is never invoked and no editor session is created.
This contradicts the spec's Submit transition; the source marks the
missing decryption with a TODO. -/
theorem claim_C1_submit_only_destroys_prompt (fs : FS)
    (s : FileExplorer.State) :
    FileExplorer.update fs s
        (FileExplorer.FileAction.PasswordPrompt PasswordPrompt.Message.Submit) =
      { s with password_prompt := none } := by
  simp only [FileExplorer.update]
  cases hp : s.password_prompt with
  | none => cases s; simp_all
  | some prompt => rfl

/-- Claim C2, counterexample: in the secret-file variant, with a context
menu open at `(50, 80)` for node `X`, processing `select(Y)` leaves the
menu open — the claim that the menu is always `None` afterwards fails. -/
theorem claim_C2_counterexample :
    (FileExplorer.update fsAllFail menuOpenState
        (FileExplorer.FileAction.Select "Y")).context_menu ≠ none := by
  decide

/-- Claim C2, amended: in the explorer variant `select` always dismisses
the context menu; in the secret-file (file_explorer) variant `select`
leaves the context-menu field exactly as it was. -/
theorem claim_C2_select_menu_behavior :
    (∀ (fs : FS) (s : Explorer.State) (p : Path) (d : Bool),
      (Explorer.update fs s (Explorer.FileAction.Select p d)).context_menu = none)
    ∧ (∀ (fs : FS) (s : FileExplorer.State) (p : Path),
      (FileExplorer.update fs s (FileExplorer.FileAction.Select p)).context_menu
        = s.context_menu) :=
  ⟨fun fs s p d => Explorer.update_Select_closes_menu fs s p d,
   fun fs s p => FileExplorer.update_Select_context_menu fs s p⟩

/-- Claim C10: when no password prompt is open, `PasswordChanged` and
`ToggleVisibility` messages leave the state completely unchanged. -/
theorem claim_C10_prompt_messages_dropped (fs : FS)
    (s : FileExplorer.State) (pw : String)
    (h : s.password_prompt = none) :
    FileExplorer.update fs s
        (FileExplorer.FileAction.PasswordPrompt
          (PasswordPrompt.Message.PasswordChanged pw)) = s
    ∧ FileExplorer.update fs s
        (FileExplorer.FileAction.PasswordPrompt
          PasswordPrompt.Message.ToggleVisibility) = s := by
  constructor <;> simp only [FileExplorer.update, h]

/-- Witness for C10 at the initial state. -/
theorem claim_C10_witness :
    FileExplorer.update fsAllFail FileExplorer.State.default
        (FileExplorer.FileAction.PasswordPrompt
          (PasswordPrompt.Message.PasswordChanged "pw"))
      = FileExplorer.State.default :=
  (claim_C10_prompt_messages_dropped fsAllFail FileExplorer.State.default
    "pw" rfl).1

namespace FileExplorer

theorem select_tail_selected_card (p : Path) (s0 : State)
    (h : s0.selected.card ≤ 1) :
    ((if p ∉ s0.selected then { s0 with selected := {p} } else s0).selected).card
      ≤ 1 := by
  split
  · simp
  · exact h

theorem update_selected_card_le (fs : FS) (s : State) (a : FileAction)
    (h : s.selected.card ≤ 1) : ((update fs s a).selected).card ≤ 1 := by
  cases a with
  | Select p =>
    simp only [update]
    split
    · split
      · exact select_tail_selected_card p _ (by simpa using h)
      · exact select_tail_selected_card p _ (by simpa using h)
    · exact select_tail_selected_card p _
        (by rw [open_file_in_editor_selected]; exact h)
  | ContextMenu p => exact h
  | CloseContextMenu => exact h
  | EditItem p =>
    simp only [update]
    show ((open_file_in_editor fs s p).selected).card ≤ 1
    rw [open_file_in_editor_selected]
    exact h
  | DeleteItem p =>
    simp only [update]
    exact Finset.card_erase_le.trans h
  | CursorMoved pos => exact h
  | CloseEditor => exact h
  | EditorAction f =>
    simp only [update]
    split <;> exact h
  | PasswordPrompt m =>
    cases m <;> simp only [update] <;> (try split) <;> exact h
  | ErrorPopup m => cases m; exact h

theorem foldl_selected_card_le (fs : FS) :
    ∀ (acts : List FileAction) (s : State), s.selected.card ≤ 1 →
      (((acts.foldl (update fs) s)).selected).card ≤ 1 := by
  intro acts
  induction acts with
  | nil => intro s h; exact h
  | cons a as ih =>
    intro s h
    exact ih (update fs s a) (update_selected_card_le fs s a h)

end FileExplorer

namespace Explorer

theorem select_tail_selected_card_ex (p : Path) (s0 : State)
    (h : s0.selected.card ≤ 1) :
    ((if p ∉ s0.selected then { s0 with selected := {p} } else s0).selected).card
      ≤ 1 := by
  split
  · simp
  · exact h

theorem update_selected_card_le_ex (fs : FS) (s : State) (a : FileAction)
    (h : s.selected.card ≤ 1) : ((update fs s a).selected).card ≤ 1 := by
  cases a with
  | Select p d =>
    simp only [update]
    split
    · split
      · exact select_tail_selected_card_ex p _ (by simpa using h)
      · exact select_tail_selected_card_ex p _ (by simpa using h)
    · exact select_tail_selected_card_ex p _ h
  | ContextMenu p d => exact h
  | CloseContextMenu => exact h
  | DeleteItem p =>
    simp only [update]
    repeat' split
    all_goals first
      | exact Finset.card_erase_le.trans h
      | exact h
  | CursorMoved pos => exact h

theorem foldl_selected_card_le_ex (fs : FS) :
    ∀ (acts : List FileAction) (s : State), s.selected.card ≤ 1 →
      (((acts.foldl (update fs) s)).selected).card ≤ 1 := by
  intro acts
  induction acts with
  | nil => intro s h; exact h
  | cons a as ih =>
    intro s h
    exact ih (update fs s a) (update_selected_card_le_ex fs s a h)

end Explorer

/-- Claim C4: starting from the initial state, after every sequence of
update actions the selected set has at most one element — in both explorer
variants. -/
theorem claim_C4_selection_exclusive :
    (∀ (fs : FS) (acts : List FileExplorer.FileAction),
      (((acts.foldl (FileExplorer.update fs)
        FileExplorer.State.default)).selected).card ≤ 1)
    ∧ (∀ (fs : FS) (acts : List Explorer.FileAction),
      (((acts.foldl (Explorer.update fs)
        Explorer.State.default)).selected).card ≤ 1) :=
  ⟨fun fs acts => FileExplorer.foldl_selected_card_le fs acts _
      (by simp [FileExplorer.State.default]),
   fun fs acts => Explorer.foldl_selected_card_le_ex fs acts _
      (by simp [Explorer.State.default])⟩

namespace FileExplorer

theorem open_file_in_editor_session (fs : FS) (s : State) (p : Path)
    (h : s.opened_file.isSome = s.editor_content.isSome) :
    ((open_file_in_editor fs s p).opened_file).isSome
      = ((open_file_in_editor fs s p).editor_content).isSome := by
  unfold open_file_in_editor
  split
  · exact h
  · split <;> rfl

theorem select_tail_session (p : Path) (s0 : State)
    (h : s0.opened_file.isSome = s0.editor_content.isSome) :
    ((if p ∉ s0.selected then { s0 with selected := {p} } else s0).opened_file).isSome
      = ((if p ∉ s0.selected then { s0 with selected := {p} } else s0).editor_content).isSome := by
  split
  · exact h
  · exact h

theorem update_session (fs : FS) (s : State) (a : FileAction)
    (h : s.opened_file.isSome = s.editor_content.isSome) :
    ((update fs s a).opened_file).isSome
      = ((update fs s a).editor_content).isSome := by
  cases a with
  | Select p =>
    simp only [update]
    split
    · split
      · exact select_tail_session p _ h
      · exact select_tail_session p _ h
    · exact select_tail_session p _ (open_file_in_editor_session fs s p h)
  | ContextMenu p => exact h
  | CloseContextMenu => exact h
  | EditItem p => exact open_file_in_editor_session fs s p h
  | DeleteItem p => exact h
  | CursorMoved pos => exact h
  | CloseEditor => rfl
  | EditorAction f =>
    cases hc : s.editor_content with
    | none => simp only [update, hc]; rw [h, hc]
    | some c => simp only [update, hc]; rw [h, hc]; rfl
  | PasswordPrompt m =>
    cases m <;> simp only [update] <;> (try split) <;> exact h
  | ErrorPopup m => cases m; exact h

theorem foldl_session (fs : FS) :
    ∀ (acts : List FileAction) (s : State),
      s.opened_file.isSome = s.editor_content.isSome →
      (((acts.foldl (update fs) s)).opened_file).isSome
        = (((acts.foldl (update fs) s)).editor_content).isSome := by
  intro acts
  induction acts with
  | nil => intro s h; exact h
  | cons a as ih =>
    intro s h
    exact ih (update fs s a) (update_session fs s a h)

end FileExplorer

/-- Claim C9: in every state reachable from the initial state, the
opened-file field is `some` exactly when the editor-content buffer is
`some` — every update action creates and destroys them together. -/
theorem claim_C9_editor_session_invariant (fs : FS)
    (acts : List FileExplorer.FileAction) :
    ((acts.foldl (FileExplorer.update fs)
        FileExplorer.State.default).opened_file).isSome
      = ((acts.foldl (FileExplorer.update fs)
        FileExplorer.State.default).editor_content).isSome :=
  FileExplorer.foldl_session fs acts FileExplorer.State.default rfl

/-- Claim C3, counterexample: in the explorer variant, when the filesystem
delete of `s.txt` fails, the path stays in the selected set — the claim
that delete always removes it even on I/O failure is false on the code. -/
theorem claim_C3_counterexample :
    "s.txt" ∈ (Explorer.update fsAllFail deleteFailState
        (Explorer.FileAction.DeleteItem "s.txt")).selected := by
  decide

/-- Claim C3, amended: in the secret-file variant `DeleteItem` performs no
filesystem I/O at all and unconditionally removes the path from both sets
(and closes the menu); in the explorer variant the filesystem delete runs
first and the path is removed from both sets only when it succeeds — on
failure the sets are left untouched and the failure is only logged, there
being no error-state channel in that variant. -/
theorem claim_C3_delete_cleanup :
    (∀ (fs : FS) (s : FileExplorer.State) (p : Path),
      FileExplorer.update fs s (FileExplorer.FileAction.DeleteItem p)
        = { s with
              selected := s.selected.erase p
              expanded := s.expanded.erase p
              context_menu := none })
    ∧ (∀ (fs : FS) (s : Explorer.State) (p : Path),
      (if fs.is_dir p then fs.remove_dir_all p else fs.remove_file p)
          = Except.ok () →
        Explorer.update fs s (Explorer.FileAction.DeleteItem p)
          = { s with
                selected := s.selected.erase p
                expanded := s.expanded.erase p
                context_menu := none })
    ∧ (∀ (fs : FS) (s : Explorer.State) (p : Path) (e : String),
      (if fs.is_dir p then fs.remove_dir_all p else fs.remove_file p)
          = Except.error e →
        Explorer.update fs s (Explorer.FileAction.DeleteItem p)
          = { s with context_menu := none }) :=
  ⟨fun fs s p => rfl,
   fun fs s p h => by simp only [Explorer.update, h],
   fun fs s p e h => by simp only [Explorer.update, h]⟩

/-- Witness for the amended C3, at concrete states and filesystems. -/
theorem claim_C3_witness :
    Explorer.update fsAllOk deleteFailState
        (Explorer.FileAction.DeleteItem "s.txt")
      = { deleteFailState with
            selected := deleteFailState.selected.erase "s.txt"
            expanded := deleteFailState.expanded.erase "s.txt"
            context_menu := none }
    ∧ Explorer.update fsAllFail deleteFailState
        (Explorer.FileAction.DeleteItem "s.txt")
      = { deleteFailState with context_menu := none } :=
  ⟨claim_C3_delete_cleanup.2.1 fsAllOk deleteFailState "s.txt" rfl,
   claim_C3_delete_cleanup.2.2 fsAllFail deleteFailState "s.txt" "denied" rfl⟩

/-- Claim C6: opening a non-encrypted path reads it; on success the editor
session is seeded from exactly the file content; on read failure no editor
session exists afterwards and the error popup carries the I/O failure
message. -/
theorem claim_C6_plaintext_open (fs : FS) (s : FileExplorer.State)
    (p : Path) (hp : isGpgPath p = false) :
    (∀ c, fs.read_to_string p = Except.ok c →
      FileExplorer.open_file_in_editor fs s p
        = { s with opened_file := some p, editor_content := some c })
    ∧ (∀ e, fs.read_to_string p = Except.error e →
      FileExplorer.open_file_in_editor fs s p
        = { s with
              opened_file := none
              editor_content := none
              error_popup := some (ErrorPopup.State.new "Error"
                ("Failed to read file: " ++ e)) }) := by
  constructor
  · intro c hr
    simp [FileExplorer.open_file_in_editor, hp, hr]
  · intro e hr
    simp [FileExplorer.open_file_in_editor, hp, hr]

/-- Witness for C6: a successful read of "notes.txt" seeds the editor with
"hello"; a failing read leaves no session and populates the error popup. -/
theorem claim_C6_witness :
    FileExplorer.open_file_in_editor fsAllOk FileExplorer.State.default
        "notes.txt"
      = { FileExplorer.State.default with
            opened_file := some "notes.txt"
            editor_content := some "hello" }
    ∧ FileExplorer.open_file_in_editor fsAllFail FileExplorer.State.default
        "notes.txt"
      = { FileExplorer.State.default with
            opened_file := none
            editor_content := none
            error_popup := some (ErrorPopup.State.new "Error"
              "Failed to read file: io error") } :=
  ⟨(claim_C6_plaintext_open fsAllOk FileExplorer.State.default "notes.txt"
      rfl).1 "hello" rfl,
   (claim_C6_plaintext_open fsAllFail FileExplorer.State.default "notes.txt"
      rfl).2 "io error" rfl⟩

/-- Claim C7: the error classification maps a gpgme error to
`WrongPassword` exactly when its code is 11 (bad passphrase) or 152
(decrypt failed); any other code is wrapped as `GpgError` carrying the
primitive's own message. -/
theorem claim_C7_wrong_password_classification (e : Gpgme.Error) :
    (Crypto.cryptoErrorFromGpg e = Crypto.CryptoError.WrongPassword
      ↔ (e.code = 11 ∨ e.code = 152))
    ∧ (¬(e.code = 11 ∨ e.code = 152) →
      Crypto.cryptoErrorFromGpg e = Crypto.CryptoError.GpgError e
      ∧ (Crypto.CryptoError.GpgError e).display
          = "GPG error: " ++ e.message) := by
  by_cases h : e.code = 11 ∨ e.code = 152
  · have hb : (e.code == 11 || e.code == 152) = true := by
      rcases h with h | h <;> simp [h]
    constructor
    · simp [Crypto.cryptoErrorFromGpg, hb, h]
    · intro hn
      exact absurd h hn
  · have hb : (e.code == 11 || e.code == 152) = false := by
      push_neg at h
      simp [h.1, h.2]
    constructor
    · constructor
      · intro hw
        simp [Crypto.cryptoErrorFromGpg, hb] at hw
      · intro hc
        exact absurd hc h
    · intro _
      exact ⟨by simp [Crypto.cryptoErrorFromGpg, hb], rfl⟩

/-- Witness for C7: code 5 is neither 11 nor 152 and is wrapped as
`GpgError`. -/
theorem claim_C7_witness :
    Crypto.cryptoErrorFromGpg ⟨5, "boom"⟩
        = Crypto.CryptoError.GpgError ⟨5, "boom"⟩
    ∧ (Crypto.CryptoError.GpgError ⟨5, "boom"⟩).display
        = "GPG error: boom" :=
  (claim_C7_wrong_password_classification ⟨5, "boom"⟩).2 (by decide)

theorem cryptoErrorFromGpg_ne_NoData (e : Gpgme.Error) :
    Crypto.cryptoErrorFromGpg e ≠ Crypto.CryptoError.NoData := by
  unfold Crypto.cryptoErrorFromGpg
  split <;> simp

/-- Claim C8: when the decryption primitive succeeds with zero bytes of
plaintext, `decrypt_with_password` returns the `NoData` error; a
successful non-empty decryption never yields `NoData`. -/
theorem claim_C8_nodata (g : Crypto.GpgPrimitive) (data : List Nat)
    (pw : String) :
    (g.init = Except.ok () → g.decryptBytes data pw = Except.ok [] →
      Crypto.decrypt_with_password g data pw
        = Except.error Crypto.CryptoError.NoData)
    ∧ (∀ pt, pt ≠ [] → g.decryptBytes data pw = Except.ok pt →
      Crypto.decrypt_with_password g data pw
        ≠ Except.error Crypto.CryptoError.NoData) := by
  constructor
  · intro hi hd
    simp [Crypto.decrypt_with_password, hi, hd]
  · intro pt hpt hd
    cases hi : g.init with
    | error e =>
      simp only [Crypto.decrypt_with_password, hi]
      intro hcon
      simp only [Except.error.injEq] at hcon
      exact cryptoErrorFromGpg_ne_NoData e hcon
    | ok u =>
      have hempty : pt.isEmpty = false := by
        cases pt with
        | nil => exact absurd rfl hpt
        | cons a l => rfl
      simp only [Crypto.decrypt_with_password, hi, hd, hempty]
      cases hf : g.fromUtf8 pt <;> simp [hf]

/-- Witness for C8: an empty successful decryption yields `NoData`; a
two-byte decryption of "hi" does not. -/
theorem claim_C8_witness :
    Crypto.decrypt_with_password gpgEmptyPlain [1, 2] "pw"
        = Except.error Crypto.CryptoError.NoData
    ∧ Crypto.decrypt_with_password gpgHiPlain [1, 2] "pw"
        ≠ Except.error Crypto.CryptoError.NoData :=
  ⟨(claim_C8_nodata gpgEmptyPlain [1, 2] "pw").1 rfl rfl,
   (claim_C8_nodata gpgHiPlain [1, 2] "pw").2 [104, 105] (by decide) rfl⟩

namespace FileExplorer

theorem render_eq_visible_aux (expanded : Finset Path) :
    ∀ (n : Nat) (es : List Entry), sizeOf es ≤ n →
      ∀ (parent : Path) (depth : Nat),
      render_directory_contents expanded parent depth es
        = list_visible_nodes expanded parent depth es := by
  intro n
  induction n with
  | zero =>
    intro es h
    exfalso
    cases es <;> simp at h
  | succ n ih =>
    intro es h parent depth
    cases es with
    | nil => simp only [render_directory_contents, list_visible_nodes]
    | cons e rest =>
      cases e with
      | file name =>
        have hr : sizeOf rest ≤ n := by simp at h; omega
        simp only [render_directory_contents, list_visible_nodes]
        rw [ih rest hr parent depth]
        simp [entryName, entryIsDir, childEntries]
      | brokenDir name =>
        have hr : sizeOf rest ≤ n := by simp at h; omega
        simp only [render_directory_contents, list_visible_nodes]
        rw [ih rest hr parent depth]
        simp [entryName, entryIsDir, childEntries, list_visible_nodes]
      | dir name contents =>
        have hr : sizeOf rest ≤ n := by simp at h; omega
        have hc : sizeOf contents ≤ n := by simp at h; omega
        simp only [render_directory_contents, list_visible_nodes]
        rw [ih rest hr parent depth,
            ih contents hc (parent ++ "/" ++ name) (depth + 1)]
        simp [entryName, entryIsDir, childEntries]

end FileExplorer

/-- Claim C5: the rendered node list is exactly the spec's pre-order
depth-first traversal in which a directory's children (and all deeper
descendants) follow it iff its path is in the expanded set; and a
collapsed, non-hidden directory contributes only its own row — no
descendants at all. -/
theorem claim_C5_tree_visibility :
    (∀ (expanded : Finset Path) (parent : Path) (depth : Nat)
        (es : List FileExplorer.Entry),
      FileExplorer.render_directory_contents expanded parent depth es
        = FileExplorer.list_visible_nodes expanded parent depth es)
    ∧ (∀ (expanded : Finset Path) (parent : Path) (depth : Nat)
        (name : String) (contents : List FileExplorer.Entry),
      startsWithDot name = false → (parent ++ "/" ++ name) ∉ expanded →
      FileExplorer.render_directory_contents expanded parent depth
          [FileExplorer.Entry.dir name contents]
        = [⟨parent ++ "/" ++ name, depth, true⟩]) := by
  constructor
  · intro expanded parent depth es
    exact FileExplorer.render_eq_visible_aux expanded (sizeOf es) es
      (Nat.le_refl _) parent depth
  · intro expanded parent depth name contents h1 h2
    simp only [FileExplorer.render_directory_contents]
    simp [h1, h2]

/-- Witness for C5's collapsed-directory conjunct: an unexpanded
directory with one child renders as just its own row. -/
theorem claim_C5_witness :
    FileExplorer.render_directory_contents ∅ "/r" 0
        [FileExplorer.Entry.dir "secrets" [FileExplorer.Entry.file "a.gpg"]]
      = [⟨"/r/secrets", 0, true⟩] :=
  claim_C5_tree_visibility.2 ∅ "/r" 0 "secrets"
    [FileExplorer.Entry.file "a.gpg"] rfl (by decide)

/-- Evaluating the Submit arm at a concrete failing input: with a prompt
open for `/secrets/a.gpg` holding password "hunter2", processing `Submit`
clears only the prompt — no decryption result, no editor session and no
error popup appear. -/
theorem submit_at_failing_input :
    FileExplorer.update fsAllFail promptOpenState
        (FileExplorer.FileAction.PasswordPrompt PasswordPrompt.Message.Submit)
      = { promptOpenState with password_prompt := none } := by
  rfl
